import Mathlib

/-!
# Verification of the ngrok-go tunnel adapter (`tunnel.go`)

Shallow embedding of the tunnel adapter layer: the `tunnelImpl` type and its
methods from `tunnel.go`, together with a model of its external collaborator,
the tunnel client (package `internal/tunnel/client`, outside the reviewed
sources; modelled from the spec where its behaviour decides a claim).

Modelling conventions:
* Go's mutable tunnel-client object is embedded by explicit state passing:
  every adapter method that in Go reads `t.Tunnel` takes the client's current
  state (`ClientState`) as an extra argument, and stateful methods return the
  updated state.  The `tunnelImpl.Tunnel` field is kept as an opaque reference.
* Go's multiple return values `(v, err)` are embedded as `Option V × Option GoError`
  (`none` for Go's `nil`).
* `context.Context` is embedded as the observable data the claims mention:
  whether the context is cancelled and an optional timeout bound in seconds.
* Raw byte streams and the proxy envelope are opaque to this layer and are
  embedded as opaque data.
-/

/-- A raw duplex stream handle (`net.Conn`); opaque to the adapter layer,
which never reads or writes its payload. -/
structure RawConn where
  fd : Nat
deriving DecidableEq, Repr

/-- Go error values as this layer can observe them.
`str` is an arbitrary opaque error (such as a sentinel injected by a test
collaborator); `acceptFailed` is the repository's `errAcceptFailed{Inner: err}`
wrapper used in `tunnelImpl.Accept`; `canceled` and `deadlineExceeded` are the
standard context cancellation errors. -/
inductive GoError where
  | str : String → GoError
  | acceptFailed : GoError → GoError
  | canceled : GoError
  | deadlineExceeded : GoError
deriving DecidableEq, Repr

/-- Modelled from the spec: `errAcceptFailed` (declared outside the reviewed
sources) "always carries the original error as its cause" — its `Unwrap`/cause
is the wrapped inner error; the other error kinds wrap nothing. -/
def GoError.cause : GoError → Option GoError
  | .acceptFailed inner => some inner
  | _ => none

/-- Whether an error is of the *AcceptFailed* kind (the check a Go caller
performs with `errors.As`). -/
def GoError.isAcceptFailed : GoError → Bool
  | .acceptFailed _ => true
  | _ => false

/-- Whether an error is a timeout/cancellation error (`context.Canceled` or
`context.DeadlineExceeded`). -/
def GoError.isCancellation : GoError → Bool
  | .canceled => true
  | .deadlineExceeded => true
  | _ => false

/-- The bind configuration snapshot consumed from the tunnel client's
`RemoteBindConfig()`: URL, protocol, metadata and labels.  Go's
`map[string]string` is embedded as an association list. -/
structure BindConfig where
  URL : String
  ConfigProto : String
  Metadata : String
  Labels : List (String × String)
deriving DecidableEq, Repr

/-- A proxied connection produced by the tunnel client's accept primitive
(`tunnel_client.ProxyConn`): the raw stream (its embedded `Conn`) plus the
proxy envelope metadata, opaque to this layer. -/
structure ProxyConn where
  Conn : RawConn
  envelope : String
deriving DecidableEq, Repr

/-- An opaque reference to the owning session collaborator; this layer never
invokes methods on it. -/
structure Session where
  ref : Nat
deriving DecidableEq, Repr

/-- An opaque reference identifying the underlying tunnel-client object held
in the adapter's `Tunnel` field; its current state is passed explicitly to
each method call. -/
structure ClientRef where
  ref : Nat
deriving DecidableEq, Repr

/-- Modelled from the spec: the observable state of the tunnel client
collaborator (repository package `internal/tunnel/client`, not among the
reviewed sources) at one instant.  `pending` is the queue of proxied
connections its accept primitive will hand out while open; `closed` records
whether the tunnel-close protocol has completed; `closeOutcome` is the
outcome its close primitive reports (`none` for success); `termErr` is the
terminal (close-triggered) error its accept primitive reports once no
connection can be handed out. -/
structure ClientState where
  bindConfig : BindConfig
  tunnelID : String
  forwardsTo : String
  addr : String
  pending : List ProxyConn
  closed : Bool
  closeOutcome : Option GoError
  termErr : GoError
deriving DecidableEq, Repr

/-- The client primitive `RemoteBindConfig()`: the bind configuration the
client currently holds. -/
def ClientState.remoteBindConfig (s : ClientState) : BindConfig :=
  s.bindConfig

/-- The client primitive `ID()`. -/
def ClientState.clientID (s : ClientState) : String :=
  s.tunnelID

/-- The client primitive `ForwardsTo()`. -/
def ClientState.clientForwardsTo (s : ClientState) : String :=
  s.forwardsTo

/-- The client primitive `Addr()`. -/
def ClientState.clientAddr (s : ClientState) : String :=
  s.addr

/-- Modelled from the spec: the tunnel client's accept primitive
(`t.Tunnel.Accept()`), not among the reviewed sources.  Per the spec's
ordering guarantee, once a close has completed no further connection is
handed out; otherwise it hands out the next queued proxied connection, and
reports the terminal error once none remains. -/
def ClientState.acceptPrim (s : ClientState) : (Except GoError ProxyConn) × ClientState :=
  if s.closed then (.error s.termErr, s)
  else
    match s.pending with
    | [] => (.error s.termErr, s)
    | c :: rest => (.ok c, { s with pending := rest })

/-- Modelled from the spec: the tunnel client's close primitive
(`t.Tunnel.Close()`), not among the reviewed sources.  It requests the
tunnel-close control message and waits for acknowledgement or failure: on
acknowledgement it reports success and the tunnel is closed (terminally — the
spec admits no reopen transition); on failure it reports the failure. -/
def ClientState.closePrim (s : ClientState) : Option GoError × ClientState :=
  match s.closeOutcome with
  | none => (none, { s with closed := true })
  | some e => (some e, s)

/-- A cancellation context as observable here: whether it has been cancelled,
and the timeout bound it was created with, if any. -/
structure GoContext where
  cancelled : Bool
  timeoutSecs : Option Nat
deriving DecidableEq, Repr

/-- `context.Background()`: never cancelled, no deadline. -/
def context.background : GoContext :=
  { cancelled := false, timeoutSecs := none }

/-- `context.WithTimeout(parent, d)`: the parent context bounded so that it is
automatically cancelled after `secs` seconds. -/
def context.withTimeout (parent : GoContext) (secs : Nat) : GoContext :=
  { parent with timeoutSecs := some secs }

/-- The adapter type `tunnelImpl`: the owning session reference `Sess` and the
reference `Tunnel` to the underlying tunnel-client object. -/
structure tunnelImpl where
  Sess : Session
  Tunnel : ClientRef
deriving DecidableEq, Repr

/-- The connection wrapper `connImpl`: the embedded raw stream `Conn` and the
`Proxy` field holding the whole proxied connection. -/
structure connImpl where
  Conn : RawConn
  Proxy : ProxyConn
deriving DecidableEq, Repr

/-- `connImpl.ProxyConn()`: returns the `Proxy` field. -/
def connImpl.ProxyConn (c : connImpl) : ProxyConn :=
  c.Proxy

/-- `tunnelImpl.Accept`: calls the client's accept primitive; on error returns
`(nil, errAcceptFailed{Inner: err})`, on success returns the wrapper
`&connImpl{Conn: conn.Conn, Proxy: conn}` and a nil error.  `s` is the state
of the client object `t.Tunnel` at call time. -/
def tunnelImpl.Accept (t : tunnelImpl) (s : ClientState) :
    (Option connImpl × Option GoError) × ClientState :=
  match s.acceptPrim with
  | (.error err, s') => ((none, some (GoError.acceptFailed err)), s')
  | (.ok conn, s') => ((some { Conn := conn.Conn, Proxy := conn }, none), s')

/-- `tunnelImpl.CloseWithContext`: ignores its context argument (bound to `_`
in the source) and returns `t.Tunnel.Close()`. -/
def tunnelImpl.CloseWithContext (t : tunnelImpl) (ctx : GoContext) (s : ClientState) :
    Option GoError × ClientState :=
  s.closePrim

/-- `tunnelImpl.Close`: builds a context with a 5-second timeout from the
background context and delegates to `CloseWithContext`. -/
def tunnelImpl.Close (t : tunnelImpl) (s : ClientState) : Option GoError × ClientState :=
  t.CloseWithContext (context.withTimeout context.background 5) s

/-- `tunnelImpl.Addr`: delegates to the client's `Addr()`. -/
def tunnelImpl.Addr (t : tunnelImpl) (s : ClientState) : String :=
  s.clientAddr

/-- `tunnelImpl.URL`: reads `t.Tunnel.RemoteBindConfig().URL` at call time. -/
def tunnelImpl.URL (t : tunnelImpl) (s : ClientState) : String :=
  s.remoteBindConfig.URL

/-- `tunnelImpl.Proto`: reads `t.Tunnel.RemoteBindConfig().ConfigProto` at
call time. -/
def tunnelImpl.Proto (t : tunnelImpl) (s : ClientState) : String :=
  s.remoteBindConfig.ConfigProto

/-- `tunnelImpl.ForwardsTo`: delegates to the client's `ForwardsTo()`. -/
def tunnelImpl.ForwardsTo (t : tunnelImpl) (s : ClientState) : String :=
  s.clientForwardsTo

/-- `tunnelImpl.Metadata`: reads `t.Tunnel.RemoteBindConfig().Metadata` at
call time. -/
def tunnelImpl.Metadata (t : tunnelImpl) (s : ClientState) : String :=
  s.remoteBindConfig.Metadata

/-- `tunnelImpl.ID`: delegates to the client's `ID()`. -/
def tunnelImpl.ID (t : tunnelImpl) (s : ClientState) : String :=
  s.clientID

/-- `tunnelImpl.Labels`: reads `t.Tunnel.RemoteBindConfig().Labels` at call
time. -/
def tunnelImpl.Labels (t : tunnelImpl) (s : ClientState) : List (String × String) :=
  s.remoteBindConfig.Labels

/-- `tunnelImpl.AsHTTP`: returns the receiver itself (`return t`) — the same
object viewed through the HTTP-capable interface. -/
def tunnelImpl.AsHTTP (t : tunnelImpl) : tunnelImpl :=
  t

/-- `tunnelImpl.Session`: returns the `Sess` field. -/
def tunnelImpl.Session (t : tunnelImpl) : Session :=
  t.Sess

/-- The results of `n` successive `Accept` calls on the adapter, starting from
client state `s`, each call seeing the state the previous one left behind. -/
def tunnelImpl.acceptResults (t : tunnelImpl) :
    Nat → ClientState → List (Option connImpl × Option GoError)
  | 0, _ => []
  | Nat.succ n, s => (t.Accept s).1 :: t.acceptResults n (t.Accept s).2

/-- Modelled from the spec: the serving loop of the HTTP server implementation
(`http.Server.Serve` of `net/http`, outside the reviewed sources), as §4.2
describes it — it "accepts connections via the Tunnel Adapter's `Accept` and
dispatches them to `handler`", and "returns the terminal error from the
serving loop".  Handler dispatch is abstracted to recording, in order, the
connections handed to the handler.  `fuel` bounds the number of loop
iterations; `none` means the loop was still running when the bound ran out. -/
def serveLoop (t : tunnelImpl) : Nat → ClientState →
    Option (GoError × List connImpl × ClientState)
  | 0, _ => none
  | Nat.succ fuel, s =>
    match t.Accept s with
    | ((_, some e), s') => some (e, [], s')
    | ((some c, none), s') =>
      match serveLoop t fuel s' with
      | none => none
      | some (e, cs, s'') => some (e, c :: cs, s'')
    | ((none, none), _) => none

/-- `tunnelImpl.Serve`: constructs an HTTP server with the given handler and
base context and serves on the adapter itself as listener; the request-serving
loop is `serveLoop`.  The caller's context is injected into each request's
base context, which is not observable in this model. -/
def tunnelImpl.Serve (t : tunnelImpl) (ctx : GoContext) (fuel : Nat) (s : ClientState) :
    Option (GoError × List connImpl × ClientState) :=
  serveLoop t fuel s

/-- Modelled from the spec: the invariant §3 states for bind configurations
produced by the tunnel client — "`proto`/`url` and `labels` are mutually
exclusive in practice": a configuration with labels carries no protocol and no
URL, and one with a URL carries no labels. -/
def BindConfig.MutuallyExclusive (b : BindConfig) : Prop :=
  (b.Labels ≠ [] → b.ConfigProto = "" ∧ b.URL = "") ∧
  (b.URL ≠ "" → b.Labels = [])

/-! ## Concrete example values, used to exercise the theorems below -/

/-- A URL-addressed bind configuration. -/
def exBind : BindConfig :=
  { URL := "https://demo.ngrok.io", ConfigProto := "https", Metadata := "meta", Labels := [] }

/-- A proxied connection handed out by the client collaborator. -/
def exConn : ProxyConn :=
  { Conn := { fd := 7 }, envelope := "env" }

/-- A tunnel adapter value. -/
def exT : tunnelImpl :=
  { Sess := { ref := 1 }, Tunnel := { ref := 2 } }

/-- A live client state: open, one queued connection, a sentinel terminal
error, and a close primitive that will succeed. -/
def exScenario : ClientState :=
  { bindConfig := exBind, tunnelID := "tn_1", forwardsTo := "localhost:8080",
    addr := "tcp://demo", pending := [exConn], closed := false,
    closeOutcome := none, termErr := GoError.str "sentinel close" }

/-- A client state whose bind configuration is label-addressed. -/
def exLabelState : ClientState :=
  { exScenario with
    bindConfig := { URL := "", ConfigProto := "", Metadata := "meta",
                    Labels := [("service", "api")] } }

/-! ## Helper lemmas -/

/-- In a closed client state, the adapter's `Accept` returns no connection and
the wrapped terminal error, leaving the state unchanged. -/
theorem accept_in_closed_state (t : tunnelImpl) (s : ClientState) (h : s.closed = true) :
    t.Accept s = ((none, some (GoError.acceptFailed s.termErr)), s) := by
  simp [tunnelImpl.Accept, ClientState.acceptPrim, h]

/-- A close primitive that reports success leaves the client closed. -/
theorem closePrim_success_closes (s : ClientState) (h : (s.closePrim).1 = none) :
    (s.closePrim).2.closed = true := by
  unfold ClientState.closePrim at h ⊢
  cases hc : s.closeOutcome with
  | none => simp
  | some e => rw [hc] at h; simp at h

/-- Every `Accept` performed in a closed client state yields no connection and
some error. -/
theorem acceptResults_closed (t : tunnelImpl) (n : Nat) (s : ClientState) (h : s.closed = true) :
    ∀ r ∈ t.acceptResults n s, r.1 = none ∧ (r.2).isSome = true := by
  induction n generalizing s with
  | zero => intro r hr; simp [tunnelImpl.acceptResults] at hr
  | succ n ih =>
    intro r hr
    rw [tunnelImpl.acceptResults] at hr
    rw [accept_in_closed_state t s h] at hr
    simp only [List.mem_cons] at hr
    rcases hr with h1 | h1
    · subst h1; exact ⟨rfl, rfl⟩
    · exact ih s h r h1

/-- In an open client state with no queued connection, the adapter's `Accept`
returns no connection and the wrapped terminal error, leaving the state
unchanged. -/
theorem accept_in_open_empty_state (t : tunnelImpl) (s : ClientState)
    (h : s.closed = false) (hp : s.pending = []) :
    t.Accept s = ((none, some (GoError.acceptFailed s.termErr)), s) := by
  simp [tunnelImpl.Accept, ClientState.acceptPrim, h, hp]

/-- The serving loop over an open client drains exactly the queued
connections, in order and wrapped, then returns the wrapped terminal error. -/
theorem serveLoop_drains (t : tunnelImpl) :
    ∀ (pend : List ProxyConn) (s : ClientState), s.closed = false → s.pending = pend →
    serveLoop t (pend.length + 1) s =
      some (GoError.acceptFailed s.termErr,
            pend.map (fun c => { Conn := c.Conn, Proxy := c }),
            { s with pending := [] }) := by
  intro pend
  induction pend with
  | nil =>
    intro s hs hp
    have hse : { s with pending := ([] : List ProxyConn) } = s := by
      cases s; simp only at hp; simp [hp]
    rw [serveLoop, accept_in_open_empty_state t s hs hp]
    simp [hse]
  | cons c rest ih =>
    intro s hs hp
    have hacc : t.Accept s = ((some { Conn := c.Conn, Proxy := c }, none),
        { s with pending := rest }) := by
      simp [tunnelImpl.Accept, ClientState.acceptPrim, hs, hp]
    rw [List.length_cons]
    rw [serveLoop, hacc]
    simp only [ih { s with pending := rest } hs rfl]
    simp

/-! ## Claim theorems -/

/-- C1: for every error `e` returned by the underlying tunnel client's accept
primitive, the adapter's `Accept` returns a nil connection and an error of the
*AcceptFailed* kind whose cause (inner error) is exactly `e`. -/
theorem accept_error_wraps_as_acceptFailed (t : tunnelImpl) (s : ClientState) (e : GoError)
    (h : (s.acceptPrim).1 = .error e) :
    (t.Accept s).1 = (none, some (GoError.acceptFailed e)) ∧
    (GoError.acceptFailed e).isAcceptFailed = true ∧
    (GoError.acceptFailed e).cause = some e := by
  refine ⟨?_, rfl, rfl⟩
  rcases hp : s.acceptPrim with ⟨r, s'⟩
  rw [hp] at h
  simp only at h
  subst h
  simp [tunnelImpl.Accept, hp]

/-- Witness for C1 at a concrete closed client whose accept primitive reports
the sentinel error. -/
theorem accept_error_wraps_as_acceptFailed_witness :
    (tunnelImpl.Accept exT { exScenario with closed := true }).1 =
      (none, some (GoError.acceptFailed (GoError.str "sentinel close"))) ∧
    (GoError.acceptFailed (GoError.str "sentinel close")).isAcceptFailed = true ∧
    (GoError.acceptFailed (GoError.str "sentinel close")).cause =
      some (GoError.str "sentinel close") :=
  accept_error_wraps_as_acceptFailed exT { exScenario with closed := true }
    (GoError.str "sentinel close") rfl

/-- C2: `Close()` is observably equivalent to `CloseWithContext` given a
context bounded to 5 seconds — in every underlying-client state both produce
the same result, and `Close` itself invokes the 5-second-timeout path. -/
theorem close_equiv_closeWithContext_5s (t : tunnelImpl) (s : ClientState) (ctx : GoContext)
    (h : ctx.timeoutSecs = some 5) :
    t.Close s = t.CloseWithContext ctx s ∧
    t.Close s = t.CloseWithContext (context.withTimeout context.background 5) s :=
  ⟨rfl, rfl⟩

/-- Witness for C2 at a concrete 5-second-bounded context and client state. -/
theorem close_equiv_closeWithContext_5s_witness :
    tunnelImpl.Close exT exScenario =
      tunnelImpl.CloseWithContext exT (context.withTimeout context.background 5) exScenario ∧
    tunnelImpl.Close exT exScenario =
      tunnelImpl.CloseWithContext exT (context.withTimeout context.background 5) exScenario :=
  close_equiv_closeWithContext_5s exT exScenario (context.withTimeout context.background 5) rfl

/-- C3 counterexample: at a cancelled context over a client whose close
primitive succeeds, `CloseWithContext` surfaces no error at all — in
particular no timeout/cancellation error — refuting the claim that a
cancelled context yields a cancellation error distinguishable from a
close-protocol error. -/
theorem closeWithContext_cancelled_counterexample :
    (⟨true, some 5⟩ : GoContext).cancelled = true ∧
    (tunnelImpl.CloseWithContext exT ⟨true, some 5⟩ exScenario).1 = none ∧
    ¬ (∃ e : GoError, (tunnelImpl.CloseWithContext exT ⟨true, some 5⟩ exScenario).1 = some e ∧
        e.isCancellation = true) := by
  refine ⟨rfl, rfl, ?_⟩
  rintro ⟨e, he, -⟩
  rw [show (tunnelImpl.CloseWithContext exT ⟨true, some 5⟩ exScenario).1 = none from rfl] at he
  exact Option.noConfusion he

/-- C3 (amended): for every cancelled context, `CloseWithContext` simply
returns the underlying client's close result — the context is ignored, no
cancellation error is synthesized, and a successful underlying close yields
no error. -/
theorem closeWithContext_cancelled_delegates (t : tunnelImpl) (ctx : GoContext) (s : ClientState)
    (h : ctx.cancelled = true) :
    t.CloseWithContext ctx s = s.closePrim ∧
    ((s.closePrim).1 = none → (t.CloseWithContext ctx s).1 = none) :=
  ⟨rfl, fun h2 => h2⟩

/-- Witness for the amended C3 at a concrete cancelled context. -/
theorem closeWithContext_cancelled_delegates_witness :
    tunnelImpl.CloseWithContext exT ⟨true, some 5⟩ exScenario = exScenario.closePrim ∧
    ((exScenario.closePrim).1 = none →
      (tunnelImpl.CloseWithContext exT ⟨true, some 5⟩ exScenario).1 = none) :=
  closeWithContext_cancelled_delegates exT ⟨true, some 5⟩ exScenario rfl

/-- C4: the context argument has no influence on `CloseWithContext`: any two
contexts give identical results, and the result is exactly the underlying
client's close result. -/
theorem closeWithContext_ignores_context (t : tunnelImpl) (ctx1 ctx2 : GoContext)
    (s : ClientState) :
    t.CloseWithContext ctx1 s = t.CloseWithContext ctx2 s ∧
    t.CloseWithContext ctx1 s = s.closePrim :=
  ⟨rfl, rfl⟩

/-- C5: `AsHTTP` is a capability upgrade with identical underlying state: it
returns the very same adapter, its `Session()` is the same owning-session
reference, and every other accessor and operation agrees with the original. -/
theorem asHTTP_identity (t : tunnelImpl) (s : ClientState) (ctx : GoContext) :
    t.AsHTTP = t ∧
    (t.AsHTTP).Session = t.Session ∧
    (t.AsHTTP).Accept s = t.Accept s ∧
    (t.AsHTTP).URL s = t.URL s ∧
    (t.AsHTTP).Proto s = t.Proto s ∧
    (t.AsHTTP).Metadata s = t.Metadata s ∧
    (t.AsHTTP).Labels s = t.Labels s ∧
    (t.AsHTTP).ID s = t.ID s ∧
    (t.AsHTTP).ForwardsTo s = t.ForwardsTo s ∧
    (t.AsHTTP).Addr s = t.Addr s ∧
    (t.AsHTTP).Close s = t.Close s ∧
    (t.AsHTTP).CloseWithContext ctx s = t.CloseWithContext ctx s :=
  ⟨rfl, rfl, rfl, rfl, rfl, rfl, rfl, rfl, rfl, rfl, rfl, rfl⟩

/-- C6: each descriptive accessor returns the value held by the underlying
client at the moment of the call — stated at two arbitrary client states
`s1` (first call) and `s2` (the state after an out-of-band mutation, second
call): each call reflects its own call-time state, never a cached one. -/
theorem accessors_read_at_call_time (t : tunnelImpl) (s1 s2 : ClientState) :
    (t.Metadata s1 = s1.bindConfig.Metadata ∧ t.Metadata s2 = s2.bindConfig.Metadata) ∧
    (t.Proto s1 = s1.bindConfig.ConfigProto ∧ t.Proto s2 = s2.bindConfig.ConfigProto) ∧
    (t.URL s1 = s1.bindConfig.URL ∧ t.URL s2 = s2.bindConfig.URL) ∧
    (t.Labels s1 = s1.bindConfig.Labels ∧ t.Labels s2 = s2.bindConfig.Labels) ∧
    (t.ID s1 = s1.tunnelID ∧ t.ID s2 = s2.tunnelID) ∧
    (t.ForwardsTo s1 = s1.forwardsTo ∧ t.ForwardsTo s2 = s2.forwardsTo) :=
  ⟨⟨rfl, rfl⟩, ⟨rfl, rfl⟩, ⟨rfl, rfl⟩, ⟨rfl, rfl⟩, ⟨rfl, rfl⟩, ⟨rfl, rfl⟩⟩

/-- C7: over a bind configuration satisfying the spec's mutual-exclusivity
invariant, a non-empty `Labels` forces `Proto` and `URL` to be empty, and a
non-empty `URL` forces `Labels` to be empty. -/
theorem url_labels_mutually_exclusive (t : tunnelImpl) (s : ClientState)
    (h : s.bindConfig.MutuallyExclusive) :
    (t.Labels s ≠ [] → t.Proto s = "" ∧ t.URL s = "") ∧
    (t.URL s ≠ "" → t.Labels s = []) :=
  h

/-- Witness for C7 at a concrete label-addressed client state. -/
theorem url_labels_mutually_exclusive_witness :
    (tunnelImpl.Labels exT exLabelState ≠ [] →
      tunnelImpl.Proto exT exLabelState = "" ∧ tunnelImpl.URL exT exLabelState = "") ∧
    (tunnelImpl.URL exT exLabelState ≠ "" → tunnelImpl.Labels exT exLabelState = []) :=
  url_labels_mutually_exclusive exT exLabelState (by constructor <;> decide)

/-- C8: after a `CloseWithContext` (hence also a `Close`, which delegates to
it with the 5-second context) that returns success, every one of any number
of subsequent `Accept` calls returns no connection and some error — never a
live connection. -/
theorem no_accept_after_successful_close (t : tunnelImpl) (ctx : GoContext) (s : ClientState)
    (h : (t.CloseWithContext ctx s).1 = none) :
    ∀ n : Nat, ∀ r ∈ t.acceptResults n (t.CloseWithContext ctx s).2,
      r.1 = none ∧ (r.2).isSome = true := by
  intro n
  exact acceptResults_closed t n _ (closePrim_success_closes s h)

/-- Witness for C8: close the concrete live client, then the next `Accept`
returns no connection and some error. -/
theorem no_accept_after_successful_close_witness :
    (tunnelImpl.Accept exT
        (tunnelImpl.CloseWithContext exT (context.withTimeout context.background 5) exScenario).2).1.1
      = none ∧
    ((tunnelImpl.Accept exT
        (tunnelImpl.CloseWithContext exT (context.withTimeout context.background 5) exScenario).2).1.2).isSome
      = true :=
  no_accept_after_successful_close exT (context.withTimeout context.background 5) exScenario rfl 1
    (tunnelImpl.Accept exT
      (tunnelImpl.CloseWithContext exT (context.withTimeout context.background 5) exScenario).2).1
    (by simp [tunnelImpl.acceptResults])

/-- C9: over an open client, `Serve` dispatches exactly the queued connections
to the handler, in order, and then returns the terminal error of its accept
loop — the tunnel's close error wrapped as *AcceptFailed*, whose cause is that
close error. -/
theorem serve_returns_terminal_accept_error (t : tunnelImpl) (ctx : GoContext) (s : ClientState)
    (hopen : s.closed = false) :
    t.Serve ctx (s.pending.length + 1) s =
      some (GoError.acceptFailed s.termErr,
            s.pending.map (fun c => { Conn := c.Conn, Proxy := c }),
            { s with pending := [] }) ∧
    (GoError.acceptFailed s.termErr).cause = some s.termErr :=
  ⟨serveLoop_drains t s.pending s hopen rfl, rfl⟩

/-- Witness for C9: the spec's scenario — a client that accepts exactly one
connection then reports the sentinel close error; `Serve` processes that one
connection and returns an error whose cause is the sentinel. -/
theorem serve_returns_terminal_accept_error_witness :
    tunnelImpl.Serve exT context.background (exScenario.pending.length + 1) exScenario =
      some (GoError.acceptFailed (GoError.str "sentinel close"),
            [{ Conn := exConn.Conn, Proxy := exConn }],
            { exScenario with pending := [] }) ∧
    (GoError.acceptFailed (GoError.str "sentinel close")).cause =
      some (GoError.str "sentinel close") :=
  serve_returns_terminal_accept_error exT context.background exScenario rfl

/-- C10: every successful `Accept` returns exactly the pass-through wrapper
around the client's proxied connection — its stream is the proxied
connection's raw stream unchanged and its `ProxyConn()` accessor returns that
proxied connection — and `Accept` returns a connection iff it returns no
error. -/
theorem accept_success_passthrough (t : tunnelImpl) (s : ClientState) :
    (∀ conn s', s.acceptPrim = (.ok conn, s') →
      t.Accept s = ((some { Conn := conn.Conn, Proxy := conn }, none), s') ∧
      ({ Conn := conn.Conn, Proxy := conn } : connImpl).ProxyConn = conn ∧
      ({ Conn := conn.Conn, Proxy := conn } : connImpl).Conn = conn.Conn) ∧
    ((t.Accept s).1.1.isSome = true ↔ (t.Accept s).1.2 = none) := by
  constructor
  · intro conn s' hp
    exact ⟨by simp [tunnelImpl.Accept, hp], rfl, rfl⟩
  · rcases hp : s.acceptPrim with ⟨r, s'⟩
    cases r <;> simp [tunnelImpl.Accept, hp]

/-- Witness for C10 at the concrete live client: the accepted connection is
the wrapper around the queued proxied connection, and its accessor returns it. -/
theorem accept_success_passthrough_witness :
    tunnelImpl.Accept exT exScenario =
      ((some { Conn := exConn.Conn, Proxy := exConn }, none),
        { exScenario with pending := [] }) ∧
    ({ Conn := exConn.Conn, Proxy := exConn } : connImpl).ProxyConn = exConn :=
  ⟨((accept_success_passthrough exT exScenario).1 exConn
      { exScenario with pending := [] } rfl).1,
   ((accept_success_passthrough exT exScenario).1 exConn
      { exScenario with pending := [] } rfl).2.1⟩
